import Mathlib

/-!
Shallow embedding of the revision-resolution and checkout-consistency core of
`releng/integration.py` (classes `RefSpec`, `GerritChange`, `GerritIntegration`,
`ProjectInfo`, `ProjectsManager`), together with theorems settling the claims
about its specification.

Python conventions are modelled explicitly:
* `None`-able values become `Option`;
* Python truthiness of optional strings (`if x:`) is `pyTruthy`;
* raised exceptions become `Except` errors (or `Option` for constructors);
* `str.startswith` is modelled character-wise on `String.data`.
-/

/-- Python truthiness of an optional string: `None` and `""` are falsy. -/
def pyTruthy : Option String → Bool
  | none => false
  | some s => !s.isEmpty

/-- Python `s.startswith(p)`, modelled character-wise. -/
def pyStartsWith (s p : String) : Bool := p.data.isPrefixOf s.data

/-- Python `s.split(sep)` for a single-character separator, character-wise. -/
def pySplitCharAux (sep : Char) : List Char → List (List Char)
  | [] => [[]]
  | c :: rest =>
      let r := pySplitCharAux sep rest
      if c = sep then [] :: r
      else
        match r with
        | h :: t => (c :: h) :: t
        | [] => [[c]]

/-- Python `s.split(sep)` for a single-character separator. -/
def pySplitChar (s : String) (sep : Char) : List String :=
  (pySplitCharAux sep s.data).map (fun l => ⟨l⟩)

/-- Python `s.strip()`, character-wise. -/
def pyStrip (s : String) : String :=
  ⟨((s.data.dropWhile Char.isWhitespace).reverse.dropWhile
      Char.isWhitespace).reverse⟩

/-- Python `s.lower()`, character-wise. -/
def pyLower (s : String) : String := ⟨s.data.map Char.toLower⟩

/-- Python `s.upper()`, character-wise. -/
def pyUpper (s : String) : String := ⟨s.data.map Char.toUpper⟩

/-- Errors raised by the embedded code.  `nameError` models a Python
`NameError` (reference to an unbound variable), `keyError` a raw dictionary
`KeyError`, `assertionError` a failed `assert`, `attributeError` an attribute
access on `None`, `refspecInitError` a failure inside `RefSpec.__init__`
(missing tarball manifest or malformed change ref). -/
inductive Err where
  | nameError
  | keyError
  | assertionError
  | attributeError
  | refspecInitError
  | configurationError (msg : String)
  | buildError (msg : String)
  | collaboratorError
deriving DecidableEq, Repr

/-- Modelled from the spec: the fixed, closed set of known repositories
(`common.Project`, whose source is not under `src/`).  The member names follow
the examples in the source docstrings (gromacs, regressiontests, releng);
`releng` is the automation repository. -/
inductive Project where
  | gromacs
  | regressiontests
  | releng
deriving DecidableEq, Repr

/-- Modelled from the spec: the string form of a repository name
(`common.Project` values are the lower-case project name strings). -/
def Project.name : Project → String
  | .gromacs => "gromacs"
  | .regressiontests => "regressiontests"
  | .releng => "releng"

/-- Python `project.upper()` on the string form of a repository name. -/
def Project.upper (p : Project) : String := pyUpper p.name

/-- Modelled from the spec: `common.Project._values`, the registry of known
repositories iterated by the resolver. -/
def Project.values : List Project := [.gromacs, .regressiontests, .releng]

/-- Modelled from the spec: `common.Project.parse`, mapping a repository name
to the registry member, failing for unknown names. -/
def Project.parse (s : String) : Option Project :=
  Project.values.find? (fun p => p.name = s)

/-- Tarball package manifest (`package-info.log`), as read by
`utils.read_property_file`; only the two keys used by `RefSpec` are kept. -/
structure TarProps where
  HEAD_HASH : String
  PACKAGE_FILE_NAME : String
deriving DecidableEq, Repr

/-- `RefSpec`: wraps handling of refspecs used to check out projects
(`integration.py` lines 21-87).  `value` is `_value`, `remote` is `_remote`,
`tar_props` is `_tar_props`. -/
structure RefSpec where
  value : String
  remote : String
  branch : Option String
  change_number : Option String
  tar_props : Option TarProps
deriving DecidableEq, Repr

/-- `RefSpec.is_tarball_refspec` (static method). -/
def RefSpec.is_tarball_refspec (value : String) : Bool :=
  pyStartsWith value "tarballs/"

/-- `RefSpec.__init__(value, remote_hash, executor)`.  `props` is the result of
`utils.read_property_file` on the package manifest (`none` models a missing
executor or unreadable manifest, which raises); `none` is also returned when
`value.split('/')[3]` would raise `IndexError` for a change ref. -/
def RefSpec.make (value : String) (remote_hash : Option String)
    (props : Option TarProps) : Option RefSpec :=
  let remote := match remote_hash with
    | some h => if h.isEmpty then value else h
    | none => value
  if RefSpec.is_tarball_refspec value then
    match props with
    | none => none
    | some tp =>
        some { value := value, remote := tp.HEAD_HASH, branch := none,
               change_number := none, tar_props := some tp }
  else if pyStartsWith value "refs/changes/" then
    match (pySplitChar value (Char.ofNat 47)).get? 3 with
    | none => none
    | some cn =>
        some { value := value, remote := remote, branch := none,
               change_number := some cn, tar_props := none }
  else if pyStartsWith value "refs/heads/" then
    match (pySplitChar value (Char.ofNat 47)).get? 2 with
    | none => none
    | some b =>
        some { value := value, remote := remote, branch := some b,
               change_number := none, tar_props := none }
  else
    some { value := value, remote := remote, branch := none,
           change_number := none, tar_props := none }

/-- `RefSpec.is_no_op`: whether this refspec is the magic no-op refspec. -/
def RefSpec.is_no_op (r : RefSpec) : Bool := r.value = "HEAD"

/-- `RefSpec.is_static`: whether this refspec specifies a static commit at the
remote side. -/
def RefSpec.is_static (r : RefSpec) : Bool := pyStartsWith r.value "refs/changes/"

/-- `RefSpec.is_tarball`. -/
def RefSpec.is_tarball (r : RefSpec) : Bool := r.tar_props.isSome

/-- `RefSpec.fetch`: git refspec used to fetch the corresponding commit. -/
def RefSpec.fetch (r : RefSpec) : String := r.value

/-- `RefSpec.checkout`: git refspec used for checkout after git fetch. -/
def RefSpec.checkout (r : RefSpec) : String :=
  if r.remote = r.value then "FETCH_HEAD" else r.remote

/-- The spec classifies every locator that is not NoOp, Static or Tarball as a
Branch locator (a branch-head ref, or "anything else" with no extractable
name). -/
def RefSpec.is_branch (r : RefSpec) : Bool :=
  !r.is_no_op && !r.is_static && !r.is_tarball

/-- Whether the locator carries a precomputed checkout hash: its checkout
target differs from the fetched ref (so `checkout` returns `remote` rather
than the `FETCH_HEAD` sentinel). -/
def RefSpec.has_precomputed_hash (r : RefSpec) : Bool := !(r.remote = r.value)

/-- `GerritChange`: parsed record of one code-review change, as built by
`GerritChange.__init__` from one JSON query-result record.  The JSON decoding
itself is an external collaborator concern; the fields are those the embedded
code reads. -/
structure GerritChange where
  project : String
  branch : String
  number : Nat
  title : String
  url : String
  is_open : Bool
  patchnumber : Nat
  refspec : Option RefSpec
deriving DecidableEq, Repr

/-- Result of `GerritIntegration.get_remote_hash`.  `errorObject` models the
source line `return BuildError(...)`: the exception object is returned to the
caller as the function value, not raised. -/
inductive RemoteHashResult where
  | hash (value : String)
  | errorObject (message : String)
deriving DecidableEq, Repr

/-- Python `output.split(None, 1)`: split on runs of whitespace, at most once,
discarding leading whitespace. -/
def pySplitNone1 (s : String) : List String :=
  let l := s.data.dropWhile Char.isWhitespace
  if l.isEmpty then []
  else
    let tok := l.takeWhile (fun c => !c.isWhitespace)
    let rest := (l.dropWhile (fun c => !c.isWhitespace)).dropWhile Char.isWhitespace
    if rest.isEmpty then [⟨tok⟩] else [⟨tok⟩, ⟨rest⟩]

/-- `GerritIntegration.get_remote_hash(project, refspec)` (lines 121-127),
applied to the raw `git ls-remote` output.  When the output has fewer than two
whitespace-separated fields (the ref does not exist upstream), the code
executes `return BuildError(...)` — it returns the error object instead of
raising it. -/
def get_remote_hash (project : String) (refspecStr : String)
    (output : String) : RemoteHashResult :=
  let parts := pySplitNone1 output
  if parts.length < 2 then
    .errorObject ("failed to find refspec " ++ refspecStr ++ " for " ++ project)
  else
    .hash (pyStrip (parts.headD ""))

/-- `GerritIntegration.query_change(query, expect_unique)` (lines 159-169).
`is_windows` is the `self._is_windows` flag; `parse` models
`GerritChange(json.loads(line))`; `lines` is `check_output(cmd).splitlines()`,
which for a Gerrit query holds one JSON record per matching change followed by
one statistics record. -/
def query_change (is_windows : Bool) (parse : String → GerritChange)
    (query : String) (lines : List String) (expect_unique : Bool) :
    Except Err (Option GerritChange) :=
  if is_windows then .ok none
  else if lines.length < 2 then
    .error (.buildError (query ++ " does not match any change"))
  else if lines.length > 2 && expect_unique then
    .error (.buildError (query ++ " does not identify a unique change"))
  else .ok (some (parse (lines.headD "")))

/-- Number of changes matched by a query whose raw output is `lines`: one JSON
record per match plus one final statistics record. -/
def num_matches (lines : List String) : Nat := lines.length - 1

/-- `ProjectInfo`: information about a checked-out project
(`integration.py` lines 199-296). -/
structure ProjectInfo where
  project : Project
  branch : Option String
  refspec : Option RefSpec
  head_hash : Option String
  head_title : Option String
  remote_hash : Option String
  is_checked_out : Bool
deriving DecidableEq, Repr

/-- `ProjectInfo.set_branch(branch)`: records the branch only if none is
recorded yet (`if self.branch is None`). -/
def ProjectInfo.set_branch (p : ProjectInfo) (branch : Option String) :
    ProjectInfo :=
  if p.branch.isNone then { p with branch := branch } else p

/-- `ProjectInfo.is_tarball` (property): `self.refspec and self.refspec.is_tarball`. -/
def ProjectInfo.is_tarball (p : ProjectInfo) : Bool :=
  match p.refspec with
  | none => false
  | some r => r.is_tarball

/-- `ProjectInfo.__init__(project, refspec)`. -/
def ProjectInfo.init (project : Project) (refspec : Option RefSpec) :
    ProjectInfo :=
  let base : ProjectInfo :=
    { project := project, branch := none, refspec := refspec,
      head_hash := none, head_title := none, remote_hash := none,
      is_checked_out := false }
  match refspec with
  | none => base
  | some r =>
      let p := base.set_branch r.branch
      if r.is_tarball then
        { p with head_hash := some r.checkout,
                 head_title := some "From tarball",
                 remote_hash := some r.checkout }
      else p

/-- `ProjectInfo.override_refspec(refspec)`: `assert not self.is_checked_out`
(`none` models the assertion failure), then replaces the locator; if the new
locator carries a truthy branch it is written directly to `self.branch`,
overwriting any existing value. -/
def ProjectInfo.override_refspec (p : ProjectInfo) (r : RefSpec) :
    Option ProjectInfo :=
  if p.is_checked_out then none
  else some { p with refspec := some r,
                     branch := if pyTruthy r.branch then r.branch else p.branch }

/-- `ProjectInfo.set_checked_out(workspace, gerrit)` (lines 236-244).
`ws` is the outcome of `workspace._get_git_commit_info(project, HEAD)`
(`none` models a raised exception), `gr` the outcome of
`gerrit.get_remote_hash` (`none` models a raised exception).  Returns the state
as mutated so far together with a success flag (`false` means an exception
propagated out of the method, leaving the state as returned). -/
def ProjectInfo.set_checked_out (p : ProjectInfo)
    (ws : Option (String × String)) (gr : Option String) :
    ProjectInfo × Bool :=
  let p := { p with is_checked_out := true }
  if p.is_tarball then (p, true)
  else
    match ws with
    | none => (p, false)
    | some (title, hash) =>
        let p := { p with head_title := some title, head_hash := some hash }
        match p.refspec with
        | none => (p, false)
        | some r =>
            if r.is_static then
              match gr with
              | none => (p, false)
              | some h => ({ p with remote_hash := some h }, true)
            else ({ p with remote_hash := p.head_hash }, true)

/-- `ProjectInfo.has_correct_hash()`: asserts the checked-out flag, then
compares the checked-out hash to the remote hash. -/
def ProjectInfo.has_correct_hash (p : ProjectInfo) : Except Err Bool :=
  if p.is_checked_out then .ok (decide (p.head_hash = p.remote_hash))
  else .error .assertionError

/-- `ProjectsManager.check_projects()` (lines 432-450), applied to the list of
per-repository states (`self._projects.values()`).  For a checked-out project
with an incorrect hash the source formats the message
`Checkout of ... failed: ...` from the name `project`, which is unbound in that
scope, so a `NameError` is raised before anything is printed and before the
aggregate `BuildError` can be reached.  The result pairs the lines printed to
the console with the outcome. -/
def check_projects : List ProjectInfo → List String × Except Err Unit
  | [] => ([], .ok ())
  | p :: rest =>
      if p.is_checked_out then
        match p.has_correct_hash with
        | .error e => ([], .error e)
        | .ok true => check_projects rest
        | .ok false => ([], .error .nameError)
      else check_projects rest

/-- Behaviour of the review-system collaborator call
`gerrit.query_change(query, expect_unique)` as seen by `ProjectInfo`:
the query string and uniqueness flag map to either a raised error or a
returned change (`none` models the Windows path returning `None`). -/
def QueryOracle : Type := String → Bool → Except Err (Option GerritChange)

/-- `ProjectInfo._load_from_gerrit(gerrit)` (lines 259-270). -/
def ProjectInfo.load_from_gerrit (g : QueryOracle) (p : ProjectInfo) :
    Except Err ProjectInfo :=
  if p.head_title.isNone || p.branch.isNone then
    match p.refspec with
    | none => .error .attributeError
    | some rs =>
        let q : Except Err (Option GerritChange) :=
          if pyTruthy rs.change_number then g (rs.change_number.getD "") true
          else if pyTruthy p.head_hash then
            g ("commit:" ++ p.head_hash.getD "") false
          else .ok none
        q.map (fun c? =>
          match c? with
          | none => p
          | some c =>
              { p with
                head_title := if p.head_title.isNone then some c.title
                              else p.head_title,
                branch := if p.branch.isNone then some c.branch else p.branch })
  else .ok p

/-- `ProjectInfo.ensure_branch_loaded(gerrit)` (lines 246-248). -/
def ProjectInfo.ensure_branch_loaded (g : QueryOracle) (p : ProjectInfo) :
    Except Err ProjectInfo :=
  if pyTruthy p.branch then .ok p else p.load_from_gerrit g

/-- The mutable state of `ProjectsManager`: the per-repository states
(`self._projects.values()`, in registry order) and the global branch
(`self._branch`). -/
structure ManagerState where
  projects : List ProjectInfo
  branch : Option String
deriving DecidableEq, Repr

/-- The loop `for project in missing: self._projects[project].override_refspec(refspec)`
at the end of `_resolve_missing_refspecs`: each state whose locator is unset is
overridden with `r`; a failed `assert` inside `override_refspec` propagates. -/
def override_missing (r : RefSpec) : List ProjectInfo →
    Except Err (List ProjectInfo)
  | [] => .ok []
  | p :: rest =>
      if p.refspec.isNone then
        match p.override_refspec r with
        | none => .error .assertionError
        | some p' => (override_missing r rest).map (p' :: ·)
      else (override_missing r rest).map (p :: ·)

/-- `ProjectsManager._resolve_missing_refspecs()` (lines 372-385). -/
def resolve_missing_refspecs (g : QueryOracle) (s : ManagerState) :
    Except Err ManagerState :=
  let missing := s.projects.filter (fun p => p.refspec.isNone)
  if missing.isEmpty then .ok s
  else
    let known := s.projects.filter
      (fun p => p.refspec.isSome && !(decide (p.project = Project.releng)))
    let step1 : Except Err ManagerState :=
      if !pyTruthy s.branch && !known.isEmpty then
        match known with
        | [k] =>
            match k.ensure_branch_loaded g with
            | .error e => .error e
            | .ok k2 =>
                .ok { projects := s.projects.map
                        (fun p => if p.project = k.project then k2 else p),
                      branch := k2.branch }
        | _ => .error .assertionError
      else .ok s
    match step1 with
    | .error e => .error e
    | .ok s1 =>
        let branchStr := match s1.branch with
          | some b => if b.isEmpty then "master" else b
          | none => "master"
        match RefSpec.make ("refs/heads/" ++ branchStr) none none with
        | none => .error .refspecInitError
        | some r =>
            match override_missing r s1.projects with
        | .error e => .error e
            | .ok ps2 => .ok { projects := ps2, branch := some branchStr }

/-- The external collaborators consulted by `ProjectsManager.__init__`:
the environment map (`factory.env.get`), the tarball-manifest reader
(`utils.read_property_file` through the executor, keyed by the tarball path;
`none` models a raised read error), the per-repository commit-info and
remote-hash collaborator outcomes used by `set_checked_out`, and the
review-system query behaviour. -/
structure Collaborators where
  env : String → Option String
  read_props : String → Option TarProps
  commit_info : Project → Option (String × String)
  remote_hash : Project → Option String
  query : QueryOracle

/-- `ProjectsManager._parse_refspec(project)` (lines 357-364): returns the
constructed locator (when the `<REPO>_REFSPEC` input is present, non-empty and
not "auto" in any case) together with the `exists` flag (whether the input is
present at all).  A failing `RefSpec.__init__` propagates. -/
def parse_refspec (c : Collaborators) (project : Project) :
    Except Err (Option RefSpec × Bool) :=
  let refspec? := c.env (project.upper ++ "_REFSPEC")
  match refspec? with
  | some v =>
      if !v.isEmpty && !(pyLower v = "auto") then
        let sha1 := c.env (project.upper ++ "_HASH")
        match RefSpec.make v sha1 (c.read_props v) with
        | none => .error .refspecInitError
        | some r => .ok (some r, true)
      else .ok (none, true)
  | none => .ok (none, false)

/-- The repository-state creation loop at the top of
`ProjectsManager._init_projects`: one `ProjectInfo` per registry member whose
`<REPO>_REFSPEC` input exists. -/
def init_project_list (c : Collaborators) : List Project →
    Except Err (List ProjectInfo)
  | [] => .ok []
  | proj :: rest =>
      match parse_refspec c proj with
      | .error e => .error e
      | .ok (rs?, ex) =>
          (init_project_list c rest).map
            (fun tail => if ex then ProjectInfo.init proj rs? :: tail else tail)

/-- `ProjectsManager._parse_checkout_project()` (lines 366-370).  An unknown
name fails `Project.parse` (a configuration error in the registry). -/
def parse_checkout_project (c : Collaborators) :
    Except Err (Option Project) :=
  match c.env "CHECKOUT_PROJECT" with
  | none => .ok none
  | some s =>
      match Project.parse s with
      | none => .error (.configurationError ("unknown project " ++ s))
      | some p => .ok (some p)

/-- `GerritIntegration.get_triggering_project()` (lines 133-137). -/
def get_triggering_project (c : Collaborators) : Except Err (Option Project) :=
  match c.env "GERRIT_PROJECT" with
  | none => .ok none
  | some s =>
      match Project.parse s with
      | none => .error (.configurationError ("unknown project " ++ s))
      | some p => .ok (some p)

/-- `GerritIntegration.get_triggering_refspec()` (lines 139-143): raises a
configuration error when `GERRIT_REFSPEC` is unset; the `RefSpec` is built
without an executor, so a tarball value fails its construction assert. -/
def get_triggering_refspec (c : Collaborators) : Except Err RefSpec :=
  match c.env "GERRIT_REFSPEC" with
  | none => .error (.configurationError "GERRIT_REFSPEC not set")
  | some v =>
      match RefSpec.make v none none with
      | none => .error .refspecInitError
      | some r => .ok r

/-- In-place mutation of the state stored for `proj` in the registry list
(the Python dictionary holds one object per project, mutated in place). -/
def update_project (ps : List ProjectInfo) (proj : Project)
    (pi : ProjectInfo) : List ProjectInfo :=
  ps.map (fun q => if q.project = proj then pi else q)

/-- The Gerrit-trigger block of `_init_projects` (lines 335-344): looks the
triggering repository up with a raw dictionary access (`KeyError` when the
state was never created), applies the triggering branch, adopts the global
branch for non-automation triggers, and overrides the locator with the
triggering refspec unless the current locator is a tarball. -/
def apply_gerrit_trigger (c : Collaborators) (projects : List ProjectInfo) :
    Except Err (List ProjectInfo × Option String) :=
  match get_triggering_project c with
  | .error e => .error e
  | .ok none => .ok (projects, none)
  | .ok (some gp) =>
      match projects.find? (fun p => p.project = gp) with
      | none => .error .keyError
      | some pinfo =>
          let gb := c.env "GERRIT_BRANCH"
          let pinfo := pinfo.set_branch gb
          let branch := if gp = Project.releng then none else gb
          if pinfo.is_tarball then
            .ok (update_project projects gp pinfo, branch)
          else
            match get_triggering_refspec c with
            | .error e => .error e
            | .ok rs =>
                match pinfo.override_refspec rs with
                | none => .error .assertionError
                | some pinfo2 => .ok (update_project projects gp pinfo2, branch)

/-- The `CHECKOUT_PROJECT` block of `_init_projects` (lines 345-350):
optionally overrides the extra repository with `CHECKOUT_REFSPEC` (another raw
dictionary access) and adds it to the set of initially checked-out
repositories. -/
def apply_checkout_project (c : Collaborators) (checkout : Option Project)
    (projects : List ProjectInfo) :
    Except Err (List ProjectInfo × List Project) :=
  match checkout with
  | none => .ok (projects, [Project.releng])
  | some cp =>
      let initial := if cp = Project.releng then [Project.releng]
                     else [Project.releng, cp]
      match c.env "CHECKOUT_REFSPEC" with
      | none => .ok (projects, initial)
      | some rsv =>
          let sha1 := c.env (cp.upper ++ "_HASH")
          match RefSpec.make rsv sha1 none with
          | none => .error .refspecInitError
          | some rs =>
              match projects.find? (fun p => p.project = cp) with
              | none => .error .keyError
              | some pinfo =>
                  match pinfo.override_refspec rs with
                  | none => .error .assertionError
                  | some pinfo2 => .ok (update_project projects cp pinfo2, initial)

/-- The final checkout loop of `_init_projects` (lines 354-355): each
initially-required repository is looked up with a raw dictionary access
(`KeyError` when absent) and marked checked out; a collaborator failure inside
`set_checked_out` propagates as the corresponding raised error. -/
def checkout_initial (c : Collaborators) : List Project →
    List ProjectInfo → Except Err (List ProjectInfo)
  | [], ps => .ok ps
  | proj :: rest, ps =>
      match ps.find? (fun p => p.project = proj) with
      | none => .error .keyError
      | some pinfo =>
          let gr := match pinfo.refspec with
            | some _ => c.remote_hash proj
            | none => none
          match pinfo.set_checked_out (c.commit_info proj) gr with
          | (_, false) => .error .collaboratorError
          | (pinfo2, true) => checkout_initial c rest (update_project ps proj pinfo2)

/-- `ProjectsManager._init_projects()` (lines 317-355), from the collaborator
inputs to the resulting manager state or the first raised error. -/
def init_projects (c : Collaborators) : Except Err ManagerState :=
  match init_project_list c Project.values with
  | .error e => .error e
  | .ok projects0 =>
      match parse_checkout_project c with
      | .error e => .error e
      | .ok checkout =>
          match apply_gerrit_trigger c projects0 with
          | .error e => .error e
          | .ok (projects1, branch1) =>
              match apply_checkout_project c checkout projects1 with
              | .error e => .error e
              | .ok (projects2, initial) =>
                  match resolve_missing_refspecs c.query
                      { projects := projects2, branch := branch1 } with
                  | .error e => .error e
                  | .ok st =>
                      (checkout_initial c initial st.projects).map
                        (fun ps => { st with projects := ps })

/-! ## Supporting lemmas and concrete fixtures -/

/-- Two strings neither of which character-wise prefixes the other cannot both
be prefixes of the same string. -/
lemma pyStartsWith_incomp {p q : String} (h1 : ¬ p.data <+: q.data)
    (h2 : ¬ q.data <+: p.data) (v : String) :
    ¬(pyStartsWith v p = true ∧ pyStartsWith v q = true) := by
  rintro ⟨a, b⟩
  rw [pyStartsWith, List.isPrefixOf_iff_prefix] at a b
  rcases List.prefix_or_prefix_of_prefix a b with h | h
  · exact h1 h
  · exact h2 h

/-- The `_remote` field computed by `RefSpec.__init__` for a non-tarball value
differs from the value iff a non-empty remote hash distinct from the value was
supplied. -/
lemma remote_hash_ne (v : String) (h : Option String) :
    (!((match h with
        | some hh => if hh.isEmpty then v else hh
        | none => v) = v)) = true ↔
      ∃ hh, h = some hh ∧ hh.isEmpty = false ∧ ¬hh = v := by
  cases h with
  | none => simp
  | some hh =>
      by_cases he : hh.isEmpty <;> by_cases hv : hh = v <;> simp [he, hv]

/-- The Branch locator produced by `RefSpec.make "refs/heads/master" none none`,
used as a concrete input in witnesses. -/
def sampleBranch : RefSpec :=
  { value := "refs/heads/master", remote := "refs/heads/master",
    branch := some "master", change_number := none, tar_props := none }

/-- The Static locator produced by
`RefSpec.make "refs/changes/34/1234/2" none none`, used as a concrete input in
witnesses. -/
def sampleStatic : RefSpec :=
  { value := "refs/changes/34/1234/2", remote := "refs/changes/34/1234/2",
    branch := none, change_number := some "1234", tar_props := none }

/-! ## Claims -/

/-- C1: failing input for the claimed consistency-check behaviour.  Two
repositories are checked out: the first (checked out from a Static locator)
has checked-out hash "aaa" but expected remote hash "bbb", the second matches.
The claim says one human-readable mismatch line is printed for the first and
exactly one aggregate build-failure error is then raised; the code instead
raises an unbound-name error (the format call references the unbound name
`project`) at the first mismatch, printing no line and never reaching the
aggregate error. -/
theorem claim_C1_check_projects_nameerror :
    check_projects
      [((ProjectInfo.init .gromacs
            (RefSpec.make "refs/changes/34/1234/2" none none)).set_checked_out
          (some ("title-a", "aaa")) (some "bbb")).1,
       ((ProjectInfo.init .releng
            (RefSpec.make "refs/heads/master" none none)).set_checked_out
          (some ("title-b", "ccc")) none).1]
      = ([], .error .nameError) := rfl

/-- C3: when the requested refspec does not exist upstream (`git ls-remote`
produces no output), `get_remote_hash` does not raise the lookup error: it
returns the `BuildError` object itself as the function value — a non-hash
value handed to the caller. -/
theorem claim_C3_returns_error_object :
    get_remote_hash "gromacs" "refs/heads/nonexistent" "" =
      .errorObject "failed to find refspec refs/heads/nonexistent for gromacs"
    := rfl

/-- C9: `override_refspec` fails (the `assert not self.is_checked_out`
precondition violation aborts) exactly when the state is already checked out,
and before checkout it succeeds and stores the new locator. -/
theorem claim_C9_override_guard (p : ProjectInfo) (r : RefSpec) :
    (p.is_checked_out = true → p.override_refspec r = none) ∧
    (p.is_checked_out = false →
      ∃ q, p.override_refspec r = some q ∧ q.refspec = some r) := by
  constructor
  · intro h
    simp [ProjectInfo.override_refspec, h]
  · intro h
    simp only [ProjectInfo.override_refspec, h, Bool.false_eq_true, if_false]
    exact ⟨_, rfl, rfl⟩

/-- Witness for C9 at concrete states: a checked-out state rejects the
override, a fresh state accepts it. -/
theorem claim_C9_override_guard_witness :
    (((ProjectInfo.init .gromacs (some sampleStatic)).set_checked_out
        (some ("t", "aaa")) (some "aaa")).1.override_refspec sampleBranch
      = none) ∧
    (∃ q, (ProjectInfo.init .gromacs none).override_refspec sampleBranch
        = some q ∧ q.refspec = some sampleBranch) :=
  ⟨(claim_C9_override_guard _ sampleBranch).1 rfl,
   (claim_C9_override_guard _ sampleBranch).2 rfl⟩

/-- C2: counterexample to "once the branch field holds a non-null value it is
never changed".  A state whose branch was set to "release-2022" is overridden
with the Branch locator for refs/heads/master (built by `RefSpec.make`), and
its branch becomes "master": `override_refspec` writes the new locator's
branch directly, without the first-write-wins rule. -/
theorem claim_C2_counterexample :
    RefSpec.make "refs/heads/master" none none = some sampleBranch ∧
    (((ProjectInfo.init .gromacs none).set_branch
        (some "release-2022")).override_refspec sampleBranch).map
      ProjectInfo.branch = some (some "master") :=
  ⟨rfl, rfl⟩

/-- C2 amended: `set_branch` is first-write-wins (a later call is a no-op once
the branch is non-null), but `override_refspec` replaces the stored branch
with the new locator's branch whenever that branch is truthy (non-`None` and
non-empty), even if a branch was already set. -/
theorem claim_C2_amended (p : ProjectInfo) (b : Option String) (r : RefSpec) :
    (p.branch.isSome = true → (p.set_branch b).branch = p.branch) ∧
    (p.is_checked_out = false → pyTruthy r.branch = true →
      (p.override_refspec r).map ProjectInfo.branch = some r.branch) := by
  constructor
  · intro h
    rw [ProjectInfo.set_branch]
    rcases hb : p.branch with _ | s
    · rw [hb] at h; simp at h
    · simp [hb]
  · intro h ht
    simp [ProjectInfo.override_refspec, h, ht]

/-- Witness for C2 amended at concrete inputs. -/
theorem claim_C2_amended_witness :
    ((((ProjectInfo.init .gromacs none).set_branch
        (some "release-2022")).set_branch (some "other")).branch
      = ((ProjectInfo.init .gromacs none).set_branch
        (some "release-2022")).branch) ∧
    ((((ProjectInfo.init .gromacs none).set_branch
        (some "release-2022")).override_refspec sampleBranch).map
      ProjectInfo.branch = some sampleBranch.branch) :=
  ⟨(claim_C2_amended _ (some "other") sampleBranch).1 rfl,
   (claim_C2_amended ((ProjectInfo.init .gromacs none).set_branch
      (some "release-2022")) none sampleBranch).2 rfl rfl⟩

/-- C4: counterexample to "mutations happen only after the collaborator calls
succeed, so a state is never observed as checked-out with its hash fields
unset".  `set_checked_out` sets the checked-out flag first; when the workspace
call fails (modelled by `none`), the state is left marked checked out with
`head_hash` still unset. -/
theorem claim_C4_counterexample :
    (((ProjectInfo.init .gromacs (some sampleBranch)).set_checked_out
        none none).1.is_checked_out = true) ∧
    (((ProjectInfo.init .gromacs (some sampleBranch)).set_checked_out
        none none).1.head_hash = none) ∧
    (((ProjectInfo.init .gromacs (some sampleBranch)).set_checked_out
        none none).2 = false) :=
  ⟨rfl, rfl, rfl⟩

/-- C4 amended: `set_checked_out` marks the state checked out before any
collaborator call; when the workspace call fails on a non-tarball state, the
error propagates with the state already flagged checked out and all hash
fields untouched (hash fields are only written after the corresponding
collaborator call returns). -/
theorem claim_C4_amended (p : ProjectInfo) (gr : Option String)
    (h : p.is_tarball = false) :
    p.set_checked_out none gr = ({ p with is_checked_out := true }, false) := by
  have h' : ({ p with is_checked_out := true } : ProjectInfo).is_tarball = false := by
    simpa [ProjectInfo.is_tarball] using h
  simp [ProjectInfo.set_checked_out, h']

/-- Witness for C4 amended at a concrete non-tarball state. -/
theorem claim_C4_amended_witness :
    (ProjectInfo.init .gromacs (some sampleBranch)).set_checked_out none none
      = ({ ProjectInfo.init .gromacs (some sampleBranch) with
            is_checked_out := true }, false) :=
  claim_C4_amended _ none rfl

/-- C8: for a state whose locator is not Static, `has_correct_hash` is true
immediately after a successful `set_checked_out`, whatever the workspace
reported as the checked-out commit; the hypothesis `head_hash = remote_hash`
is the pre-checkout consistency every constructed state satisfies (both fields
start `None`, or both equal the tarball checkout hash). -/
theorem claim_C8_non_static_always_correct (p : ProjectInfo) (r : RefSpec)
    (ws : Option (String × String)) (gr : Option String)
    (h1 : p.refspec = some r) (h2 : r.is_static = false)
    (h3 : p.head_hash = p.remote_hash)
    (h4 : (p.set_checked_out ws gr).2 = true) :
    ((p.set_checked_out ws gr).1).has_correct_hash = .ok true := by
  obtain ⟨proj, br, rs, hh, ht, rh, co⟩ := p
  simp only at h1 h3
  subst h1
  subst h3
  by_cases htar : r.is_tarball = true
  · simp [ProjectInfo.set_checked_out, ProjectInfo.is_tarball, htar,
      ProjectInfo.has_correct_hash]
  · cases ws with
    | none =>
        simp [ProjectInfo.set_checked_out, ProjectInfo.is_tarball, htar] at h4
    | some ti =>
        obtain ⟨t, hsh⟩ := ti
        simp [ProjectInfo.set_checked_out, ProjectInfo.is_tarball, htar, h2,
          ProjectInfo.has_correct_hash]

/-- Witness for C8: a Branch-locator state checked out successfully. -/
theorem claim_C8_witness :
    (((ProjectInfo.init .releng (some sampleBranch)).set_checked_out
        (some ("t", "ccc")) none).1).has_correct_hash = .ok true :=
  claim_C8_non_static_always_correct _ sampleBranch _ none rfl rfl rfl rfl

/-- C7: counterexample to the claimed iff.  `query_change` first checks the
Windows flag and returns `None` without running the query and without raising:
on Windows, a query whose output would report zero matches (a single
statistics row) produces no lookup error, contradicting "raises a lookup
error iff the query matches zero changes, or ...". -/
theorem claim_C7_counterexample :
    query_change true
      (fun _ => { project := "gromacs", branch := "master", number := 1,
                  title := "t", url := "u", is_open := true, patchnumber := 1,
                  refspec := none })
      "change:1234" ["stats-row"] true = .ok none := rfl

/-- C7 amended: on non-Windows systems, `query_change` raises a lookup error
iff the query matches zero changes or matches more than one while uniqueness
was required; with several matches and uniqueness not required it returns the
change parsed from the first output record; on Windows it always returns
`None` without raising.  The embedded function takes no repository state, so
no `RepositoryState` is mutated when it raises. -/
theorem claim_C7_amended (parse : String → GerritChange) (q : String)
    (lines : List String) (eu : Bool) :
    ((∃ e, query_change false parse q lines eu = .error e) ↔
      num_matches lines = 0 ∨ (1 < num_matches lines ∧ eu = true)) ∧
    (1 < num_matches lines → eu = false →
      query_change false parse q lines eu = .ok (some (parse (lines.headD "")))) ∧
    (∀ lines2 : List String, query_change true parse q lines2 eu = .ok none) := by
  refine ⟨?_, ?_, fun lines2 => rfl⟩
  · constructor
    · rintro ⟨e, he⟩
      unfold query_change at he
      rw [if_neg (by decide)] at he
      by_cases hlt : lines.length < 2
      · left; unfold num_matches; omega
      · rw [if_neg hlt] at he
        by_cases hgt : lines.length > 2 && eu
        · right
          simp only [Bool.and_eq_true, decide_eq_true_eq] at hgt
          unfold num_matches
          exact ⟨by omega, hgt.2⟩
        · rw [if_neg hgt] at he
          exact absurd he (by simp)
    · intro hm
      unfold query_change
      rw [if_neg (by decide)]
      unfold num_matches at hm
      by_cases hlt : lines.length < 2
      · rw [if_pos hlt]; exact ⟨_, rfl⟩
      · rcases hm with hm | ⟨hm1, hm2⟩
        · omega
        · rw [if_neg hlt,
            if_pos (by simp only [hm2, Bool.and_true, decide_eq_true_eq]; omega)]
          exact ⟨_, rfl⟩
  · intro hm he
    unfold query_change num_matches at *
    rw [if_neg (by decide), if_neg (by omega), if_neg (by simp [he])]

/-- Witness for C7 amended: three output records with uniqueness not required
return the change parsed from the first record. -/
theorem claim_C7_amended_witness :
    query_change false
      (fun s => { project := s, branch := "master", number := 1, title := "t",
                  url := "u", is_open := true, patchnumber := 1,
                  refspec := none })
      "change:1234" ["rec-one", "rec-two", "rec-three", "stats-row"] false
      = .ok (some { project := "rec-one", branch := "master", number := 1,
                    title := "t", url := "u", is_open := true, patchnumber := 1,
                    refspec := none }) :=
  (claim_C7_amended _ "change:1234" _ false).2.1 (by decide) rfl

/-- C5: counterexample to "a locator classified as Branch never carries a
precomputed hash".  A Branch locator constructed from a branch-head ref
together with an explicit remote hash (as `_parse_refspec` does whenever the
`<REPO>_HASH` input is set) is a Branch variant whose checkout target is the
supplied hash, distinct from the fetched ref. -/
theorem claim_C5_counterexample :
    (RefSpec.make "refs/heads/master" (some "0123abc") none).map
      (fun r => r.is_branch && r.has_precomputed_hash) = some true := rfl

/-- C5 amended: for every constructed locator, exactly one variant is active
and tarball metadata is present iff the raw value is a tarball path; but a
precomputed checkout hash is present iff a non-empty remote hash distinct
from the raw value was supplied (or, for tarballs, the manifest head hash
differs from the value) — independent of the variant, so Branch and NoOp
locators may carry one and a Static locator built without a hash lacks one. -/
theorem claim_C5_amended (v : String) (h : Option String) (pr : Option TarProps)
    (r : RefSpec) (hm : RefSpec.make v h pr = some r) :
    ((if r.is_no_op = true then 1 else 0) + (if r.is_static = true then 1 else 0)
      + (if r.is_tarball = true then 1 else 0)
      + (if r.is_branch = true then 1 else 0) = 1) ∧
    r.is_tarball = RefSpec.is_tarball_refspec v ∧
    (r.has_precomputed_hash = true ↔
      (∃ tp, r.tar_props = some tp ∧ ¬tp.HEAD_HASH = v) ∨
      (r.tar_props = none ∧ ∃ hh, h = some hh ∧ hh.isEmpty = false ∧ ¬hh = v))
    := by
  simp only [RefSpec.make] at hm
  by_cases htar : RefSpec.is_tarball_refspec v
  · rw [if_pos htar] at hm
    cases pr with
    | none => exact absurd hm (by simp)
    | some tp =>
        simp only [Option.some.injEq] at hm
        subst hm
        have hno : ¬ v = "HEAD" := by
          intro hv; subst hv; exact absurd htar (by decide)
        have hst : pyStartsWith v "refs/changes/" = false := by
          by_contra hc
          simp only [Bool.not_eq_false] at hc
          exact pyStartsWith_incomp (p := "tarballs/") (q := "refs/changes/")
            (by decide) (by decide) v ⟨htar, hc⟩
        refine ⟨?_, ?_, ?_⟩
        · simp [RefSpec.is_no_op, RefSpec.is_static, RefSpec.is_tarball,
            RefSpec.is_branch, hno, hst]
        · simp [RefSpec.is_tarball, htar]
        · constructor
          · intro hp
            left
            refine ⟨tp, rfl, ?_⟩
            simpa [RefSpec.has_precomputed_hash] using hp
          · rintro (⟨tp2, htp, hne⟩ | ⟨hnone, _⟩)
            · simp only [Option.some.injEq] at htp
              subst htp
              simpa [RefSpec.has_precomputed_hash] using hne
            · exact absurd hnone (by simp)
  · rw [if_neg htar] at hm
    have htarf : RefSpec.is_tarball_refspec v = false := by simpa using htar
    by_cases hch : pyStartsWith v "refs/changes/"
    · rw [if_pos hch] at hm
      cases hget : (pySplitChar v (Char.ofNat 47)).get? 3 with
      | none => rw [hget] at hm; exact absurd hm (by simp)
      | some cn =>
          rw [hget] at hm
          simp only [Option.some.injEq] at hm
          subst hm
          have hno : ¬ v = "HEAD" := by
            intro hv; subst hv; exact absurd hch (by decide)
          refine ⟨?_, ?_, ?_⟩
          · simp [RefSpec.is_no_op, RefSpec.is_static, RefSpec.is_tarball,
              RefSpec.is_branch, hno, hch]
          · simp [RefSpec.is_tarball, htarf]
          · constructor
            · intro hp
              right
              exact ⟨rfl, (remote_hash_ne v h).1 hp⟩
            · rintro (⟨tp, htp, _⟩ | ⟨_, hex⟩)
              · exact absurd htp (by simp)
              · exact (remote_hash_ne v h).2 hex
    · rw [if_neg hch] at hm
      have hchf : pyStartsWith v "refs/changes/" = false := by simpa using hch
      by_cases hhd : pyStartsWith v "refs/heads/"
      · rw [if_pos hhd] at hm
        cases hget : (pySplitChar v (Char.ofNat 47)).get? 2 with
        | none => rw [hget] at hm; exact absurd hm (by simp)
        | some b =>
            rw [hget] at hm
            simp only [Option.some.injEq] at hm
            subst hm
            have hno : ¬ v = "HEAD" := by
              intro hv; subst hv; exact absurd hhd (by decide)
            refine ⟨?_, ?_, ?_⟩
            · simp [RefSpec.is_no_op, RefSpec.is_static, RefSpec.is_tarball,
                RefSpec.is_branch, hno, hchf]
            · simp [RefSpec.is_tarball, htarf]
            · constructor
              · intro hp
                right
                exact ⟨rfl, (remote_hash_ne v h).1 hp⟩
              · rintro (⟨tp, htp, _⟩ | ⟨_, hex⟩)
                · exact absurd htp (by simp)
                · exact (remote_hash_ne v h).2 hex
      · rw [if_neg hhd] at hm
        simp only [Option.some.injEq] at hm
        subst hm
        refine ⟨?_, ?_, ?_⟩
        · by_cases hv : v = "HEAD"
          · subst hv
            have hs : pyStartsWith "HEAD" "refs/changes/" = false := by decide
            simp [RefSpec.is_no_op, RefSpec.is_static, RefSpec.is_tarball,
              RefSpec.is_branch, hs]
          · simp [RefSpec.is_no_op, RefSpec.is_static, RefSpec.is_tarball,
              RefSpec.is_branch, hv, hchf]
        · simp [RefSpec.is_tarball, htarf]
        · constructor
          · intro hp
            right
            exact ⟨rfl, (remote_hash_ne v h).1 hp⟩
          · rintro (⟨tp, htp, _⟩ | ⟨_, hex⟩)
            · exact absurd htp (by simp)
            · exact (remote_hash_ne v h).2 hex

/-- Witness for C5 amended at the Branch locator for refs/heads/master. -/
theorem claim_C5_amended_witness :
    ((if sampleBranch.is_no_op = true then 1 else 0)
      + (if sampleBranch.is_static = true then 1 else 0)
      + (if sampleBranch.is_tarball = true then 1 else 0)
      + (if sampleBranch.is_branch = true then 1 else 0) = 1) ∧
    sampleBranch.is_tarball = RefSpec.is_tarball_refspec "refs/heads/master" ∧
    (sampleBranch.has_precomputed_hash = true ↔
      (∃ tp, sampleBranch.tar_props = some tp ∧ ¬tp.HEAD_HASH = "refs/heads/master") ∨
      (sampleBranch.tar_props = none ∧
        ∃ hh, (none : Option String) = some hh ∧ hh.isEmpty = false ∧
          ¬hh = "refs/heads/master")) :=
  claim_C5_amended "refs/heads/master" none none sampleBranch rfl

/-- When no repository awaiting a locator is checked out yet, the override
loop succeeds and rewrites exactly the entries whose locator is unset. -/
lemma override_missing_eq (r : RefSpec) :
    ∀ ps : List ProjectInfo,
      (∀ p ∈ ps, p.refspec = none → p.is_checked_out = false) →
      override_missing r ps = .ok (ps.map (fun p =>
        if p.refspec = none then
          { p with refspec := some r,
                   branch := if pyTruthy r.branch then r.branch else p.branch }
        else p))
  | [], _ => rfl
  | p :: rest, h => by
      have ih := override_missing_eq r rest
        (fun q hq hq2 => h q (List.mem_cons_of_mem _ hq) hq2)
      by_cases hrs : p.refspec = none
      · have hco : p.is_checked_out = false :=
          h p (List.mem_cons_self _ _) hrs
        simp [override_missing, hrs, ProjectInfo.override_refspec, hco, ih,
          Except.map]
      · simp [override_missing, Option.isNone_iff_eq_none, hrs, ih, Except.map]

/-- Writing a member back over every entry with its own repository name is the
identity when repository names are unique (the registry is a dictionary keyed
by repository). -/
lemma update_member_self {ps : List ProjectInfo} {k : ProjectInfo}
    (hnd : (ps.map ProjectInfo.project).Nodup) (hk : k ∈ ps) :
    ps.map (fun p => if p.project = k.project then k else p) = ps := by
  conv_rhs => rw [← List.map_id ps]
  refine List.map_congr_left (fun p hp => ?_)
  by_cases hpk : p.project = k.project
  · rw [if_pos hpk]
    exact (List.inj_on_of_nodup_map hnd hp hk hpk).symm
  · rw [if_neg hpk]
    rfl

/-- C6: in the fallback pass, when at least one repository still lacks a
locator, no global branch is known, and the branch lookup on the single
already-resolved non-automation repository (when there is one) yields nothing,
the global branch defaults to "master" and the Branch locator for
refs/heads/master is assigned, identical and unchanged, to every repository
still missing a locator, while repositories that already have one keep theirs
unchanged. -/
theorem claim_C6_fallback_master (g : QueryOracle) (s : ManagerState)
    (hnd : (s.projects.map ProjectInfo.project).Nodup)
    (hb : s.branch = none)
    (hmiss : (s.projects.filter (fun p => p.refspec.isNone)).isEmpty = false)
    (hknown : (s.projects.filter (fun p =>
        p.refspec.isSome && !(decide (p.project = Project.releng)))) = [] ∨
      ∃ k, (s.projects.filter (fun p =>
          p.refspec.isSome && !(decide (p.project = Project.releng)))) = [k] ∧
        k.ensure_branch_loaded g = .ok k ∧ k.branch = none)
    (hnco : ∀ p ∈ s.projects, p.refspec = none → p.is_checked_out = false) :
    resolve_missing_refspecs g s = .ok
      { projects := s.projects.map (fun p =>
          if p.refspec = none then
            { p with refspec := some sampleBranch, branch := some "master" }
          else p),
        branch := some "master" } := by
  obtain ⟨ps, br⟩ := s
  simp only at hb hmiss hknown hnco hnd
  subst hb
  have hmk : RefSpec.make ("refs/heads/" ++ "master") none none
      = some sampleBranch := rfl
  have hov := override_missing_eq sampleBranch ps hnco
  have hovr : override_missing sampleBranch ps = .ok (ps.map (fun p =>
      if p.refspec = none then
        { p with refspec := some sampleBranch, branch := some "master" }
      else p)) := hov
  rcases hknown with hk0 | ⟨k, hk1, hkload, hkbr⟩
  · simp only [resolve_missing_refspecs, hmiss, Bool.false_eq_true, if_false,
      hk0, pyTruthy, List.isEmpty_nil, Bool.not_true, Bool.and_false,
      Bool.false_eq_true, if_false, hmk, hovr]
  · have hkmem : k ∈ ps := by
      have hkf : k ∈ ps.filter (fun p =>
          p.refspec.isSome && !(decide (p.project = Project.releng))) := by
        rw [hk1]; exact List.mem_cons_self _ _
      exact List.mem_of_mem_filter hkf
    have hupd := update_member_self hnd hkmem
    simp only [resolve_missing_refspecs, hmiss, Bool.false_eq_true, if_false,
      hk1, pyTruthy, List.isEmpty_cons, Bool.not_false, Bool.and_true,
      Bool.not_true, if_true, hkload, hupd, hkbr, hmk, hovr]

/-- Witness for C6: a registry where gromacs awaits a locator, releng holds a
Static locator (excluded from branch inference as the automation repository),
and no branch is resolvable anywhere. -/
theorem claim_C6_fallback_master_witness :
    resolve_missing_refspecs (fun _ _ => Except.ok none)
      { projects := [ProjectInfo.init .gromacs none,
                     ProjectInfo.init .releng (some sampleStatic)],
        branch := none }
      = .ok { projects :=
                [{ project := .gromacs, branch := some "master",
                   refspec := some sampleBranch, head_hash := none,
                   head_title := none, remote_hash := none,
                   is_checked_out := false },
                 ProjectInfo.init .releng (some sampleStatic)],
              branch := some "master" } :=
  claim_C6_fallback_master (fun _ _ => Except.ok none) _ (by decide) rfl rfl
    (Or.inl rfl) (by decide)

/-- Every `ProjectInfo` built by the constructor records the repository it was
built for. -/
lemma init_project_eq (proj : Project) (rs : Option RefSpec) :
    (ProjectInfo.init proj rs).project = proj := by
  cases rs with
  | none => rfl
  | some r =>
      simp only [ProjectInfo.init, ProjectInfo.set_branch]
      split <;> split <;> rfl

/-- The `exists` flag returned by `_parse_refspec` records exactly whether the
repository's `<REPO>_REFSPEC` input is present. -/
lemma parse_refspec_exists (c : Collaborators) (q : Project)
    (rs : Option RefSpec) (ex : Bool) (h : parse_refspec c q = .ok (rs, ex)) :
    ex = (c.env (q.upper ++ "_REFSPEC")).isSome := by
  unfold parse_refspec at h
  cases henv : c.env (q.upper ++ "_REFSPEC") with
  | none =>
      rw [henv] at h
      simp only [Except.ok.injEq, Prod.mk.injEq] at h
      simp [← h.2, henv]
  | some v =>
      rw [henv] at h
      dsimp only at h
      by_cases hv : (!v.isEmpty && !(pyLower v = "auto")) = true
      · rw [if_pos hv] at h
        cases hmk : RefSpec.make v (c.env (q.upper ++ "_HASH"))
            (c.read_props v) with
        | none => rw [hmk] at h; exact absurd h (by simp)
        | some r =>
            rw [hmk] at h
            simp only [Except.ok.injEq, Prod.mk.injEq] at h
            simp [← h.2]
      · rw [if_neg hv] at h
        simp only [Except.ok.injEq, Prod.mk.injEq] at h
        simp [← h.2]

/-- A present but empty or "auto"-valued (any case) `<REPO>_REFSPEC` input
yields a state with no locator. -/
lemma parse_refspec_auto (c : Collaborators) (q : Project) (v : String)
    (henv : c.env (q.upper ++ "_REFSPEC") = some v)
    (hv : v = "" ∨ pyLower v = "auto") :
    parse_refspec c q = .ok (none, true) := by
  unfold parse_refspec
  rw [henv]
  dsimp only
  have hcond : (!v.isEmpty && !(pyLower v = "auto")) = false := by
    rcases hv with h | h
    · subst h; rfl
    · simp [h]
  rw [if_neg (by simp [hcond])]

/-- A repository has a state in the registry built by the creation loop iff
its `<REPO>_REFSPEC` input is present. -/
lemma init_find_mem (c : Collaborators) :
    ∀ (projs : List Project) (l : List ProjectInfo),
      init_project_list c projs = .ok l → ∀ proj : Project,
      ((l.find? (fun p => p.project = proj)).isSome = true ↔
        (proj ∈ projs ∧ (c.env (proj.upper ++ "_REFSPEC")).isSome = true))
  | [], l, hok, proj => by
      simp only [init_project_list, Except.ok.injEq] at hok
      subst hok
      simp
  | q :: rest, l, hok, proj => by
      simp only [init_project_list] at hok
      cases hpr : parse_refspec c q with
      | error e => rw [hpr] at hok; exact absurd hok (by simp)
      | ok pe =>
          obtain ⟨rs, ex⟩ := pe
          rw [hpr] at hok
          cases hrest : init_project_list c rest with
          | error e => rw [hrest] at hok; exact absurd hok (by simp [Except.map])
          | ok tail =>
              rw [hrest] at hok
              simp only [Except.map, Except.ok.injEq] at hok
              subst hok
              have ihl := init_find_mem c rest tail hrest proj
              have hex := parse_refspec_exists c q rs ex hpr
              by_cases hqp : q = proj
              · subst hqp
                cases hexb : ex with
                | true =>
                    rw [hexb] at hex
                    simp only [if_true]
                    rw [List.find?_cons_of_pos _ (by simp [init_project_eq])]
                    simp [← hex]
                | false =>
                    rw [hexb] at hex
                    simp only [Bool.false_eq_true, if_false]
                    rw [ihl]
                    simp [← hex]
              · have hfindq : ∀ (t : List ProjectInfo),
                    ((ProjectInfo.init q rs :: t).find?
                        (fun p => p.project = proj)) =
                      t.find? (fun p => p.project = proj) := by
                  intro t
                  exact List.find?_cons_of_neg _ (by simp [init_project_eq, hqp])
                have hmem : (proj ∈ q :: rest) ↔ proj ∈ rest := by
                  constructor
                  · intro h
                    rcases List.mem_cons.mp h with h | h
                    · exact absurd h.symm hqp
                    · exact h
                  · intro h
                    exact List.mem_cons_of_mem _ h
                cases hexb : ex with
                | true =>
                    simp only [if_true]
                    rw [hfindq, ihl, hmem]
                | false =>
                    simp only [Bool.false_eq_true, if_false]
                    rw [ihl, hmem]

/-- A present `<REPO>_REFSPEC` input that is empty or "auto" (any case) still
creates the repository's state, with no locator. -/
lemma init_find_auto (c : Collaborators) :
    ∀ (projs : List Project) (l : List ProjectInfo),
      init_project_list c projs = .ok l → ∀ (proj : Project) (v : String),
      proj ∈ projs → c.env (proj.upper ++ "_REFSPEC") = some v →
      (v = "" ∨ pyLower v = "auto") →
      l.find? (fun p => p.project = proj) = some (ProjectInfo.init proj none)
  | [], l, hok, proj, v => by
      intro hmem
      exact absurd hmem (by simp)
  | q :: rest, l, hok, proj, v => by
      intro hmem henv hv
      simp only [init_project_list] at hok
      cases hpr : parse_refspec c q with
      | error e => rw [hpr] at hok; exact absurd hok (by simp)
      | ok pe =>
          obtain ⟨rs, ex⟩ := pe
          rw [hpr] at hok
          cases hrest : init_project_list c rest with
          | error e => rw [hrest] at hok; exact absurd hok (by simp [Except.map])
          | ok tail =>
              rw [hrest] at hok
              simp only [Except.map, Except.ok.injEq] at hok
              subst hok
              by_cases hqp : q = proj
              · subst hqp
                have hauto := parse_refspec_auto c q v henv hv
                rw [hauto] at hpr
                simp only [Except.ok.injEq, Prod.mk.injEq] at hpr
                obtain ⟨hrs, hex⟩ := hpr
                rw [← hex, ← hrs]
                simp only [if_true]
                rw [List.find?_cons_of_pos _ (by simp [init_project_eq])]
              · have hmemr : proj ∈ rest := by
                  rcases List.mem_cons.mp hmem with h | h
                  · exact absurd h.symm hqp
                  · exact h
                have ihl := init_find_auto c rest tail hrest proj v hmemr henv hv
                cases hexb : ex with
                | true =>
                    simp only [if_true]
                    rw [List.find?_cons_of_neg _ (by simp [init_project_eq, hqp]),
                      ihl]
                | false =>
                    simp only [Bool.false_eq_true, if_false]
                    exact ihl

/-- C10: a repository state is created during resolver initialization exactly
for repositories whose `<REPO>_REFSPEC` input is present (a present "auto" or
empty value still creates a state, with no locator); consequently, when the
review system reports a triggering repository whose input is absent, or the
automation repository must be checked out while its input is absent,
initialization fails with the raw dictionary `KeyError` — not one of the
typed configuration errors. -/
theorem claim_C10_registry_membership (c : Collaborators)
    (m : List ProjectInfo) (hm : init_project_list c Project.values = .ok m) :
    (∀ proj : Project, ((m.find? (fun p => p.project = proj)).isSome = true ↔
        (c.env (proj.upper ++ "_REFSPEC")).isSome = true)) ∧
    (∀ (proj : Project) (v : String),
        c.env (proj.upper ++ "_REFSPEC") = some v →
        (v = "" ∨ pyLower v = "auto") →
        m.find? (fun p => p.project = proj)
          = some (ProjectInfo.init proj none)) ∧
    (∀ (gp : Project) (co : Option Project),
        get_triggering_project c = .ok (some gp) →
        parse_checkout_project c = .ok co →
        c.env (gp.upper ++ "_REFSPEC") = none →
        init_projects c = .error .keyError) ∧
    (get_triggering_project c = .ok none →
        parse_checkout_project c = .ok none →
        c.env (Project.releng.upper ++ "_REFSPEC") = none →
        (m.filter (fun p => p.refspec.isNone)).isEmpty = true →
        init_projects c = .error .keyError) := by
  have hvals : ∀ proj : Project, proj ∈ Project.values := by
    intro proj; cases proj <;> decide
  refine ⟨?_, ?_, ?_, ?_⟩
  · intro proj
    rw [init_find_mem c Project.values m hm proj]
    simp [hvals proj]
  · intro proj v henv hv
    exact init_find_auto c Project.values m hm proj v (hvals proj) henv hv
  · intro gp co htrig hco henv
    have hfind : m.find? (fun p => p.project = gp) = none := by
      have hiff := init_find_mem c Project.values m hm gp
      rw [henv] at hiff
      simp only [Option.isSome_none, Bool.false_eq_true, and_false,
        iff_false] at hiff
      exact Option.not_isSome_iff_eq_none.mp hiff
    simp only [init_projects, hm, hco, apply_gerrit_trigger, htrig, hfind]
  · intro htrig hco henv hnomiss
    have hfind : m.find? (fun p => p.project = Project.releng) = none := by
      have hiff := init_find_mem c Project.values m hm Project.releng
      rw [henv] at hiff
      simp only [Option.isSome_none, Bool.false_eq_true, and_false,
        iff_false] at hiff
      exact Option.not_isSome_iff_eq_none.mp hiff
    have hres : resolve_missing_refspecs c.query
        { projects := m, branch := none }
        = .ok { projects := m, branch := none } := by
      simp only [resolve_missing_refspecs]
      rw [if_pos hnomiss]
    simp only [init_projects, hm, hco, apply_gerrit_trigger, htrig,
      apply_checkout_project, hres, checkout_initial, hfind]
    rfl

/-- Concrete collaborators for witnesses: the automation repository has an
explicit locator, the trigger names gromacs, and `GROMACS_REFSPEC` is absent. -/
def sampleCollab : Collaborators :=
  { env := fun k =>
      if k = "RELENG_REFSPEC" then some "refs/heads/master"
      else if k = "GERRIT_PROJECT" then some "gromacs"
      else none,
    read_props := fun _ => none,
    commit_info := fun _ => none,
    remote_hash := fun _ => none,
    query := fun _ _ => Except.ok none }

/-- Witness for C10: with `GROMACS_REFSPEC` absent and gromacs reported as the
triggering repository, initialization fails with the raw missing-key error. -/
theorem claim_C10_registry_membership_witness :
    init_projects sampleCollab = .error .keyError :=
  (claim_C10_registry_membership sampleCollab
      [ProjectInfo.init .releng (some sampleBranch)] rfl).2.2.1
    .gromacs none rfl rfl rfl
